import Mathlib

/-!
# Verification of the ML pipeline service (`ml-pipeline-service`)

Shallow embedding of the pipeline aggregate
(`domain/entities/pipeline.py`) and of the orchestrator
(`application/pipeline_orchestrator.py`), together with theorems checking
the natural-language specification against the code.

Conventions of the embedding:
* Python `Dict[str, ...]` becomes an association list `List (String × _)`
  with insertion-order-preserving update (`dictSet`), matching Python
  dict semantics for iteration and overwrite.
* Python `datetime.utcnow()` becomes an explicit `now : Nat` argument to
  every mutating operation.
* A Python method that may `raise` and mutates `self` in place becomes a
  function `... → Option PipelineError × Pipeline`: the first component
  is the raised error (if any), the second is the state of the object
  after the call (partial mutation before a raise is preserved, exactly
  as in Python).
* `float` percentages are modelled over `ℚ`.
* Opaque `Any` payloads are modelled as string-keyed string maps.
-/

namespace MLPipeline

/-- Python `Dict[str, Any]` payloads (`output_data`, `metadata`, ...). -/
abbrev Data := List (String × String)

/-- Lookup in an association list (first match; keys are kept unique by
`dictSet`, mirroring Python dict access). -/
def dictGet (k : String) : List (String × α) → Option α
  | [] => none
  | (k', v) :: rest => if k' = k then some v else dictGet k rest

/-- Python `d.get(k, default)`. -/
def dictGetD (k : String) (d : α) (l : List (String × α)) : α :=
  (dictGet k l).getD d

/-- Python `d[k] = v`: overwrite in place, append if absent
(insertion-order preserving, like a Python dict). -/
def dictSet (k : String) (v : α) : List (String × α) → List (String × α)
  | [] => [(k, v)]
  | (k', v') :: rest => if k' = k then (k, v) :: rest else (k', v') :: dictSet k v rest

/-- Python `k in d`. -/
def dictMem (k : String) (l : List (String × α)) : Bool :=
  (dictGet k l).isSome

/-- `PipelineStatus` enum from `pipeline.py`. -/
inductive PipelineStatus where
  | PENDING
  | RUNNING
  | COMPLETED
  | FAILED
  | CANCELLED
deriving DecidableEq, Repr

/-- `StageStatus` enum from `pipeline.py`. -/
inductive StageStatus where
  | PENDING
  | RUNNING
  | COMPLETED
  | FAILED
  | SKIPPED
deriving DecidableEq, Repr

/-- Rendering used by Python f-strings on the enum (`str(self._status)`). -/
def statusStr : PipelineStatus → String
  | .PENDING => "PipelineStatus.PENDING"
  | .RUNNING => "PipelineStatus.RUNNING"
  | .COMPLETED => "PipelineStatus.COMPLETED"
  | .FAILED => "PipelineStatus.FAILED"
  | .CANCELLED => "PipelineStatus.CANCELLED"

/-- `StageResult` frozen dataclass from `pipeline.py`. -/
structure StageResult where
  stage_name : String
  status : StageStatus
  output_data : Data
  metadata : Data := []
  error_message : Option String := none
  processing_time_ms : Nat := 0
  checkpoint_data : Option Data := none
deriving DecidableEq, Repr

/-- `PipelineConfiguration` frozen dataclass from `pipeline.py`. -/
structure PipelineConfiguration where
  model_version : String
  batch_size : Nat
  gpu_enabled : Bool
  checkpoint_enabled : Bool
  max_retries : Nat := 3
  timeout_seconds : Nat := 3600
  stage_configs : List (String × Data) := []
deriving DecidableEq, Repr

/-- The contract part of a `PipelineStage` (name and dependencies); stage
bodies are opaque and live in the orchestrator model as behaviours. -/
structure StageSpec where
  name : String
  dependencies : List String
deriving DecidableEq, Repr

/-- Errors raised by aggregate operations (Python raises `ValueError`
with a distinguishing message; the constructors mirror the messages). -/
inductive PipelineError where
  | cannotStart (s : PipelineStatus)
  | cannotCompleteStage (s : PipelineStatus)
  | cannotCompletePipeline (s : PipelineStatus)
  | cannotCancel (s : PipelineStatus)
  | unknownStage (n : String)
  | stageNotCompleted (n : String)
  | stageNotInCompletedStatus (n : String)
deriving DecidableEq, Repr

/-- `str(e)` of the corresponding Python `ValueError`. -/
def PipelineError.message : PipelineError → String
  | .cannotStart s => "Cannot start pipeline in status: " ++ statusStr s
  | .cannotCompleteStage s => "Cannot complete stage when pipeline status is: " ++ statusStr s
  | .cannotCompletePipeline s => "Cannot complete pipeline in status: " ++ statusStr s
  | .cannotCancel s => "Cannot cancel pipeline in status: " ++ statusStr s
  | .unknownStage n => "Unknown stage: " ++ n
  | .stageNotCompleted n => "Stage " ++ n ++ " not completed"
  | .stageNotInCompletedStatus n => "Stage " ++ n ++ " not in completed status"

/-- The spec's error taxonomy groups the four status-guard errors as
`InvalidStateError`. -/
def PipelineError.isInvalidState : PipelineError → Bool
  | .cannotStart _ => true
  | .cannotCompleteStage _ => true
  | .cannotCompletePipeline _ => true
  | .cannotCancel _ => true
  | _ => false

/-- Domain events emitted by the aggregate, with the payload fields the
source event classes carry (fresh `event_id` / `occurred_on` omitted:
they never influence control flow). -/
inductive DomainEvent where
  | pipelineStarted (pipeline_id video_id : String) (total_stages : Nat)
      (configuration : PipelineConfiguration)
  | stageCompleted (pipeline_id video_id stage_name : String)
      (result : StageResult) (progress_percentage : ℚ)
  | stageFailed (pipeline_id video_id stage_name error_message : String)
      (retry_count max_retries : Nat)
  | pipelineCompleted (pipeline_id video_id : String)
      (total_processing_time_ms : Nat) (final_results : List (String × StageResult))
  | pipelineCancelled (pipeline_id video_id reason : String)
deriving DecidableEq, Repr

/-- The `Pipeline` aggregate state (`pipeline.py`, `Pipeline.__init__`).
`_stages` / `_stage_order` are derived from the `stages` list exactly as
the constructor derives them. -/
structure Pipeline where
  id : String
  video_id : String
  configuration : PipelineConfiguration
  stages : List StageSpec
  status : PipelineStatus
  stage_results : List (String × StageResult)
  current_stage_index : Nat
  created_at : Nat
  updated_at : Nat
  domain_events : List DomainEvent
  retry_counts : List (String × Nat)
  checkpoint_data : List (String × Data)
deriving DecidableEq, Repr

namespace Pipeline

/-- `self._stage_order = [stage.name for stage in stages]`. -/
def stage_order (p : Pipeline) : List String :=
  p.stages.map StageSpec.name

/-- `stage_name in self._stages` (the dict comprehension keys are exactly
the stage names). -/
def hasStage (p : Pipeline) (n : String) : Bool :=
  p.stage_order.contains n

/-- `self._stages[stage_name]`: a Python dict comprehension keeps the
last stage with a given name. -/
def stageLookup (p : Pipeline) (n : String) : Option StageSpec :=
  p.stages.reverse.find? (fun s => s.name = n)

/-- `Pipeline.__init__`. -/
def mk_pipeline (pipeline_id video_id : String) (configuration : PipelineConfiguration)
    (stages : List StageSpec) (now : Nat) : Pipeline where
  id := pipeline_id
  video_id := video_id
  configuration := configuration
  stages := stages
  status := .PENDING
  stage_results := []
  current_stage_index := 0
  created_at := now
  updated_at := now
  domain_events := []
  retry_counts := []
  checkpoint_data := []

/-- `Pipeline.current_stage` property. -/
def current_stage (p : Pipeline) : Option String :=
  if p.current_stage_index < p.stage_order.length then
    p.stage_order.get? p.current_stage_index
  else none

/-- Number of entries of `_stage_results` whose status is `COMPLETED`
(the list comprehension inside `progress_percentage`). -/
def completedStages (p : Pipeline) : Nat :=
  (p.stage_results.filter (fun kv => kv.2.status = StageStatus.COMPLETED)).length

/-- `Pipeline.progress_percentage` property: `0.0` for an empty stage
list, else `(completed / len(stage_order)) * 100.0`. -/
def progress_percentage (p : Pipeline) : ℚ :=
  if p.stage_order = [] then 0
  else ((completedStages p : ℚ) / (p.stage_order.length : ℚ)) * 100

/-- `Pipeline._add_domain_event`. -/
def add_domain_event (p : Pipeline) (e : DomainEvent) : Pipeline :=
  { p with domain_events := p.domain_events ++ [e] }

/-- `Pipeline._calculate_total_processing_time`. -/
def calculate_total_processing_time (p : Pipeline) : Nat :=
  (p.stage_results.map (fun kv => kv.2.processing_time_ms)).sum

/-- `Pipeline.clear_domain_events`. -/
def clear_domain_events (p : Pipeline) : Pipeline :=
  { p with domain_events := [] }

/-- `Pipeline.start_processing`: requires `PENDING`, sets `RUNNING`,
emits `PipelineStartedEvent`. It performs no auto-advance. -/
def start_processing (now : Nat) (p : Pipeline) : Option PipelineError × Pipeline :=
  if p.status ≠ .PENDING then (some (.cannotStart p.status), p)
  else
    let p := { p with status := .RUNNING, updated_at := now }
    (none, p.add_domain_event (.pipelineStarted p.id p.video_id p.stage_order.length p.configuration))

/-- First stage of `_stage_order` violating the all-completed check of
`complete_pipeline` (missing entry, or entry not `COMPLETED`), with the
error Python raises there. -/
def findIncomplete (results : List (String × StageResult)) :
    List String → Option PipelineError
  | [] => none
  | n :: rest =>
    match dictGet n results with
    | none => some (.stageNotCompleted n)
    | some r =>
      if r.status ≠ StageStatus.COMPLETED then some (.stageNotInCompletedStatus n)
      else findIncomplete results rest

/-- `Pipeline.complete_pipeline`: requires `RUNNING` and every declared
stage `COMPLETED`; sets `COMPLETED` and emits `PipelineCompletedEvent`. -/
def complete_pipeline (now : Nat) (p : Pipeline) : Option PipelineError × Pipeline :=
  if p.status ≠ .RUNNING then (some (.cannotCompletePipeline p.status), p)
  else
    match findIncomplete p.stage_results p.stage_order with
    | some e => (some e, p)
    | none =>
      let p := { p with status := .COMPLETED, updated_at := now }
      (none, p.add_domain_event (.pipelineCompleted p.id p.video_id
        p.calculate_total_processing_time p.stage_results))

/-- `Pipeline._advance_to_next_stage`: unconditionally increments the
index; when it reaches the stage count, calls `complete_pipeline`. -/
def advance_to_next_stage (now : Nat) (p : Pipeline) : Option PipelineError × Pipeline :=
  let p := { p with current_stage_index := p.current_stage_index + 1 }
  if p.current_stage_index ≥ p.stage_order.length then complete_pipeline now p
  else (none, p)

/-- Python truthiness of `result.checkpoint_data` (None and `{}` are
falsy). -/
def checkpointTruthy : Option Data → Bool
  | none => false
  | some d => !d.isEmpty

/-- The checkpoint-copy statement of `complete_stage`: `if
self._configuration.checkpoint_enabled and result.checkpoint_data:
self._checkpoint_data[stage_name] = result.checkpoint_data`. -/
def applyCheckpoint (stage_name : String) (result : StageResult) (p : Pipeline) : Pipeline :=
  if p.configuration.checkpoint_enabled ∧ checkpointTruthy result.checkpoint_data then
    { p with checkpoint_data :=
        dictSet stage_name (result.checkpoint_data.getD []) p.checkpoint_data }
  else p

/-- The tail of `complete_stage`: append the `StageCompletedEvent`
unless the advance step raised (in which case the exception propagates
with the partially mutated state). -/
def finishCompleteStage (stage_name : String) (result : StageResult) :
    Option PipelineError × Pipeline → Option PipelineError × Pipeline
  | (some e, p') => (some e, p')
  | (none, p') =>
    (none, p'.add_domain_event (.stageCompleted p'.id p'.video_id stage_name result
      p'.progress_percentage))

/-- `Pipeline.complete_stage`. Mutation order follows the source: store
the result, copy checkpoint data, then (for a `COMPLETED` result) reset
the retry count and advance — `advance_to_next_stage` may raise, in which
case the `StageCompletedEvent` is never appended but the earlier
mutations stand. -/
def complete_stage (now : Nat) (stage_name : String) (result : StageResult)
    (p : Pipeline) : Option PipelineError × Pipeline :=
  if ¬ p.hasStage stage_name then (some (.unknownStage stage_name), p)
  else if p.status ≠ .RUNNING then (some (.cannotCompleteStage p.status), p)
  else
    let p1 := applyCheckpoint stage_name result
      { p with stage_results := dictSet stage_name result p.stage_results,
               updated_at := now }
    finishCompleteStage stage_name result
      (if result.status = StageStatus.COMPLETED then
        advance_to_next_stage now { p1 with retry_counts := dictSet stage_name 0 p1.retry_counts }
      else (none, p1))

/-- `Pipeline.fail_stage`: no status guard; increments the retry count;
fails the whole pipeline once the pre-call count has reached
`max_retries`; always emits `StageFailedEvent`. -/
def fail_stage (now : Nat) (stage_name error_message : String)
    (p : Pipeline) : Option PipelineError × Pipeline :=
  if ¬ p.hasStage stage_name then (some (.unknownStage stage_name), p)
  else
    let retry_count := dictGetD stage_name 0 p.retry_counts
    let p := { p with retry_counts := dictSet stage_name (retry_count + 1) p.retry_counts }
    let p :=
      if retry_count ≥ p.configuration.max_retries then
        { p with status := .FAILED,
                 stage_results := dictSet stage_name
                   { stage_name := stage_name
                     status := .FAILED
                     output_data := []
                     error_message := some error_message } p.stage_results }
      else p
    let p := { p with updated_at := now }
    (none, p.add_domain_event (.stageFailed p.id p.video_id stage_name error_message
      (retry_count + 1) p.configuration.max_retries))

/-- `Pipeline.cancel_pipeline`: rejected only in `COMPLETED` / `FAILED`;
sets `CANCELLED` and emits `PipelineCancelledEvent`. -/
def cancel_pipeline (now : Nat) (reason : String)
    (p : Pipeline) : Option PipelineError × Pipeline :=
  if p.status = .COMPLETED ∨ p.status = .FAILED then (some (.cannotCancel p.status), p)
  else
    let p := { p with status := .CANCELLED, updated_at := now }
    (none, p.add_domain_event (.pipelineCancelled p.id p.video_id reason))

/-- `Pipeline.get_stage_dependencies_met`. -/
def get_stage_dependencies_met (p : Pipeline) (stage_name : String) : Bool :=
  match p.stageLookup stage_name with
  | none => false
  | some s =>
    s.dependencies.all (fun dep =>
      match dictGet dep p.stage_results with
      | none => false
      | some r => r.status = StageStatus.COMPLETED)

end Pipeline

/-- `checkpoint_data.update(...)` style Python dict merge: apply every
key-value pair of `extra` onto `l`. -/
def dictUpdate (l extra : List (String × String)) : List (String × String) :=
  extra.foldl (fun acc kv => dictSet kv.1 kv.2 acc) l

/-- Checkpoint snapshot payload.

Modelled from the spec: `Pipeline.get_checkpoint_data` and
`Pipeline.restore_from_checkpoint` are referenced by the orchestrator and
the tests but are not defined in the source snapshot; §4.2 gives the
contract. The snapshot carries
`{id, videoId, status, currentStageIndex, stageResults, retryCounts,
checkpointData, createdAt, updatedAt}`; since the spec requires the
snapshot to be "sufficient to restore the aggregate's control state" and
`restore` to check "the snapshot's stage-name order", the stage-name
order and the configuration are part of the blob as well. -/
structure CheckpointBlob where
  pipeline_id : String
  video_id : String
  status : PipelineStatus
  current_stage_index : Nat
  stage_results : List (String × StageResult)
  retry_counts : List (String × Nat)
  checkpoint_data : List (String × Data)
  created_at : Nat
  updated_at : Nat
  stage_names : List String
  configuration : PipelineConfiguration
deriving DecidableEq, Repr

/-- Modelled from the spec: `Pipeline.get_checkpoint_data`
(`checkpointSnapshot()` of §4.2) — a serializable view of the aggregate's
persistent fields, missing from the source snapshot. -/
def Pipeline.get_checkpoint_data (p : Pipeline) : CheckpointBlob where
  pipeline_id := p.id
  video_id := p.video_id
  status := p.status
  current_stage_index := p.current_stage_index
  stage_results := p.stage_results
  retry_counts := p.retry_counts
  checkpoint_data := p.checkpoint_data
  created_at := p.created_at
  updated_at := p.updated_at
  stage_names := p.stage_order
  configuration := p.configuration

/-- Restoration failure of §4.2 (`IncompatibleStagesError`). -/
inductive RestoreError where
  | incompatibleStages
deriving DecidableEq, Repr

/-- Modelled from the spec: `Pipeline.restore_from_checkpoint`
(`restore(snapshot, stageHandles)` of §4.2) — missing from the source
snapshot. Requires the stage-handle list to match the snapshot's
stage-name order (else `IncompatibleStagesError`); reconstructs the
aggregate from the snapshot fields; emits no events. -/
def Pipeline.restore_from_checkpoint (blob : CheckpointBlob)
    (stages : List StageSpec) : Except RestoreError Pipeline :=
  if stages.map StageSpec.name ≠ blob.stage_names then .error .incompatibleStages
  else .ok
    { id := blob.pipeline_id
      video_id := blob.video_id
      configuration := blob.configuration
      stages := stages
      status := blob.status
      stage_results := blob.stage_results
      current_stage_index := blob.current_stage_index
      created_at := blob.created_at
      updated_at := blob.updated_at
      domain_events := []
      retry_counts := blob.retry_counts
      checkpoint_data := blob.checkpoint_data }

/-! ## Orchestrator model (`application/pipeline_orchestrator.py`)

The orchestrator's collaborators (`EventPublisher`, `ProgressNotifier`,
`CheckpointManager`) are effectful; each call to one of them is recorded
as an `Action` in an emitted trace. A stage body's behaviour is an input
(`StageBeh.process` either raises, as `Except.error msg`, or returns a
`StageResult`), and the checkpoint store's behaviour is the input
`saveRaises : Nat → Bool` (whether the save after the i-th stage
raises). A raised Python exception in the orchestrator is an `Exn`
value travelling in the third component of each result. -/

/-- Exceptions flowing through the orchestrator. -/
inductive Exn where
  | pipelineErr (e : PipelineError)
  | stageErr (msg : String)
  | depsNotMet (name : String)
deriving DecidableEq, Repr

/-- `str(e)` for an orchestrator-level exception. -/
def Exn.message : Exn → String
  | .pipelineErr e => e.message
  | .stageErr m => m
  | .depsNotMet n => "Dependencies not met for stage " ++ n

/-- One recorded effect of the orchestrator on a collaborator. -/
inductive Action where
  | publish (e : DomainEvent)
  | notifyStageStarted (pipeline_id video_id stage_name : String)
  | notifyStageCompleted (pipeline_id video_id stage_name : String)
      (progress_percentage : ℚ)
  | notifyStageFailed (pipeline_id video_id stage_name error_message : String)
  | checkpointSave (pipeline_id : String) (blob : CheckpointBlob) (ok : Bool)
  | warnCheckpointFailed (pipeline_id : String)
deriving DecidableEq, Repr

/-- A stage handle together with the behaviour of its `process` body:
given `(input_data, stage_config)`, either a result or a raised error. -/
structure StageBeh where
  spec : StageSpec
  process : Data → Data → Except String StageResult

/-- `PipelineOrchestrator._publish_domain_events`: publish each pending
event in order, then clear them. -/
def publish_domain_events (p : Pipeline) : List Action × Pipeline :=
  if p.domain_events.isEmpty then ([], p)
  else (p.domain_events.map Action.publish, p.clear_domain_events)

/-- `PipelineOrchestrator._save_checkpoint`: the body reads the
snapshot and calls `save_checkpoint`; the surrounding `try/except`
swallows a raising save and logs a warning, so no error ever leaves this
step. -/
def save_checkpoint_actions (raises : Bool) (p : Pipeline) : List Action :=
  if raises then
    [.checkpointSave p.id p.get_checkpoint_data false, .warnCheckpointFailed p.id]
  else
    [.checkpointSave p.id p.get_checkpoint_data true]

/-- The `except` block of `PipelineOrchestrator._execute_stage`: record
the failure on the aggregate, publish pending events, notify failure,
re-raise the caught exception. (If `fail_stage` itself raises, that new
exception replaces the caught one, as in Python.) -/
def stage_failure_handler (now : Nat) (name : String) (e : Exn)
    (p : Pipeline) : List Action × Pipeline × Option Exn :=
  match Pipeline.fail_stage now name e.message p with
  | (some e2, p') => ([], p', some (.pipelineErr e2))
  | (none, p') =>
    let pub := publish_domain_events p'
    (pub.1 ++ [.notifyStageFailed pub.2.id pub.2.video_id name e.message],
     pub.2, some e)

/-- `PipelineOrchestrator._execute_stage`: dependency check, start
notification, stage body, `complete_stage`, event flush, completion
notification; any exception falls into `stage_failure_handler`. -/
def execute_stage (now : Nat) (beh : StageBeh) (input : Data)
    (configuration : PipelineConfiguration) (p : Pipeline) :
    List Action × Pipeline × Option Exn :=
  let name := beh.spec.name
  if ¬ p.get_stage_dependencies_met name then
    stage_failure_handler now name (.depsNotMet name) p
  else
    let started : List Action := [.notifyStageStarted p.id p.video_id name]
    let cfg := dictGetD name [] configuration.stage_configs
    match beh.process input cfg with
    | .error msg =>
      let r := stage_failure_handler now name (.stageErr msg) p
      (started ++ r.1, r.2.1, r.2.2)
    | .ok result =>
      match Pipeline.complete_stage now name result p with
      | (some e, p') =>
        let r := stage_failure_handler now name (.pipelineErr e) p'
        (started ++ r.1, r.2.1, r.2.2)
      | (none, p') =>
        let pub := publish_domain_events p'
        (started ++ pub.1 ++
          [.notifyStageCompleted pub.2.id pub.2.video_id name pub.2.progress_percentage],
         pub.2, none)

/-- The input-data merge at the bottom of the stage loop: `if stage.name
in pipeline.stage_results: input_data.update(result.output_data)`. -/
def loopNextInput (name : String) (input : Data) (p : Pipeline) : Data :=
  match dictGet name p.stage_results with
  | some res => dictUpdate input res.output_data
  | none => input

/-- The stage loop of `PipelineOrchestrator.execute_pipeline`: run each
stage while the status is `RUNNING`; after a stage, save a checkpoint
when enabled and merge the stage's `output_data` into the input data. -/
def run_stages (now : Nat) (configuration : PipelineConfiguration)
    (saveRaises : Nat → Bool) :
    List StageBeh → Nat → Data → Pipeline → List Action × Pipeline × Option Exn
  | [], _, _, p => ([], p, none)
  | b :: rest, i, input, p =>
    if p.status ≠ .RUNNING then ([], p, none)
    else
      let r := execute_stage now b input configuration p
      match r.2.2 with
      | some e => (r.1, r.2.1, some e)
      | none =>
        let p' := r.2.1
        let saveTr :=
          if configuration.checkpoint_enabled then
            save_checkpoint_actions (saveRaises i) p'
          else []
        let rest' := run_stages now configuration saveRaises rest (i + 1)
          (loopNextInput b.spec.name input p') p'
        (r.1 ++ saveTr ++ rest'.1, rest'.2.1, rest'.2.2)

/-- The `except` block of `PipelineOrchestrator.execute_pipeline`: it
calls `fail_stage("orchestrator", str(e))`; when no stage is named
`"orchestrator"`, that call itself raises `Unknown stage: orchestrator`,
which replaces the caught exception, and the subsequent event flush and
bare `raise` are never reached. -/
def pipeline_failure_handler (now : Nat) (e : Exn) (p : Pipeline) :
    List Action × Pipeline × Option Exn :=
  match Pipeline.fail_stage now "orchestrator" e.message p with
  | (some e2, p') => ([], p', some (.pipelineErr e2))
  | (none, p') =>
    let pub := publish_domain_events p'
    (pub.1, pub.2, some e)

/-- `PipelineOrchestrator.execute_pipeline`: build the aggregate, start
it, flush events, drive the stages, and complete the pipeline when it is
still `RUNNING` after the loop. The fresh `ProcessingId` of
`create_for_video` is the `pipeline_id` argument. -/
def execute_pipeline (now : Nat) (pipeline_id video_id video_path : String)
    (configuration : PipelineConfiguration) (behs : List StageBeh)
    (saveRaises : Nat → Bool) : List Action × Pipeline × Option Exn :=
  let p0 := Pipeline.mk_pipeline pipeline_id video_id configuration
    (behs.map StageBeh.spec) now
  match Pipeline.start_processing now p0 with
  | (some e, p1) => pipeline_failure_handler now (.pipelineErr e) p1
  | (none, p1) =>
    let pub := publish_domain_events p1
    let input : Data := [("video_path", video_path)]
    let r := run_stages now configuration saveRaises behs 0 input pub.2
    match r.2.2 with
    | some e =>
      let h := pipeline_failure_handler now e r.2.1
      (pub.1 ++ r.1 ++ h.1, h.2.1, h.2.2)
    | none =>
      let p3 := r.2.1
      if p3.status = .RUNNING then
        match Pipeline.complete_pipeline now p3 with
        | (some e, p4) =>
          let h := pipeline_failure_handler now (.pipelineErr e) p4
          (pub.1 ++ r.1 ++ h.1, h.2.1, h.2.2)
        | (none, p4) =>
          let pub2 := publish_domain_events p4
          (pub.1 ++ r.1 ++ pub2.1, pub2.2, none)
      else (pub.1 ++ r.1, p3, none)

/-- The events published in a trace, in order. -/
def publishedEvents (tr : List Action) : List DomainEvent :=
  tr.filterMap (fun a =>
    match a with
    | .publish e => some e
    | _ => none)

/-! ## Helper lemmas -/

theorem dictGet_dictSet_self (k : String) (v : α) (l : List (String × α)) :
    dictGet k (dictSet k v l) = some v := by
  induction l with
  | nil => simp [dictGet, dictSet]
  | cons kv rest ih =>
    obtain ⟨k', v'⟩ := kv
    by_cases h : k' = k
    · simp [dictSet, dictGet, h]
    · simp [dictSet, dictGet, h, ih]

theorem dictGet_dictSet_ne (m k : String) (v : α) (l : List (String × α))
    (h : m ≠ k) : dictGet m (dictSet k v l) = dictGet m l := by
  have hk : ¬ k = m := fun hh => h hh.symm
  induction l with
  | nil => simp [dictGet, dictSet, hk]
  | cons kv rest ih =>
    obtain ⟨k', v'⟩ := kv
    by_cases h' : k' = k
    · subst h'
      simp [dictSet, dictGet, hk]
    · simp [dictSet, dictGet, h', ih]

theorem dictGetD_dictSet_self (k : String) (v d : α) (l : List (String × α)) :
    dictGetD k d (dictSet k v l) = v := by
  simp [dictGetD, dictGet_dictSet_self]

theorem clear_domain_events_of_empty (p : Pipeline) (h : p.domain_events = []) :
    p.clear_domain_events = p := by
  cases p
  simp_all [Pipeline.clear_domain_events]

theorem publish_domain_events_eq (p : Pipeline) :
    publish_domain_events p =
      (p.domain_events.map Action.publish, p.clear_domain_events) := by
  unfold publish_domain_events
  by_cases h : p.domain_events.isEmpty
  · have h' : p.domain_events = [] := by simpa using h
    simp [h, h', clear_domain_events_of_empty p h']
  · simp [h]

/-! ## Concrete fixtures used by witnesses and counterexamples -/

/-- A configuration with the given retry bound and checkpoint switch. -/
def testConfig (mr : Nat) (ck : Bool) : PipelineConfiguration where
  model_version := "v1.0.0"
  batch_size := 8
  gpu_enabled := true
  checkpoint_enabled := ck
  max_retries := mr

def stageA : StageSpec := { name := "A", dependencies := [] }

def stageB : StageSpec := { name := "B", dependencies := [] }

def resultA : StageResult :=
  { stage_name := "A", status := .COMPLETED, output_data := [("kA", "v")],
    processing_time_ms := 10 }

def resultB : StageResult :=
  { stage_name := "B", status := .COMPLETED, output_data := [("kB", "v")],
    processing_time_ms := 10 }

/-- Stage behaviour: `A` succeeds with `resultA`. -/
def behA : StageBeh := { spec := stageA, process := fun _ _ => .ok resultA }

/-- Stage behaviour: `B` succeeds with `resultB`. -/
def behB : StageBeh := { spec := stageB, process := fun _ _ => .ok resultB }

/-- Stage behaviour: `A` always raises `"boom"`. -/
def behBoom : StageBeh := { spec := stageA, process := fun _ _ => .error "boom" }

/-- A started (RUNNING) pipeline with stages `[A, B]`, `max_retries = 3`. -/
def startedAB : Pipeline :=
  (Pipeline.start_processing 0
    (Pipeline.mk_pipeline "P" "V" (testConfig 3 true) [stageA, stageB] 0)).2

/-- A started (RUNNING) pipeline with the single stage `A`. -/
def startedA (mr : Nat) : Pipeline :=
  (Pipeline.start_processing 0
    (Pipeline.mk_pipeline "P" "V" (testConfig mr true) [stageA] 0)).2

/-- A pipeline driven to `FAILED` by one `fail_stage` with `max_retries = 0`. -/
def pFailedFixture : Pipeline := (Pipeline.fail_stage 1 "A" "e0" (startedA 0)).2

/-- A pipeline driven to `CANCELLED`. -/
def pCancelledFixture : Pipeline :=
  (Pipeline.cancel_pipeline 1 "first" (startedA 0)).2

/-! ## C7: progress invariant -/

/-- Definition following the claim's words: `progressPercentage` is 100
times the number of entries in `stageResults` whose status is COMPLETED,
divided by the number of declared stages, and 0 for an empty stage
list. -/
def progressSpec (p : Pipeline) : ℚ :=
  if p.stage_order = [] then 0
  else 100 * (Pipeline.completedStages p : ℚ) / (p.stage_order.length : ℚ)

/-- C7: after every aggregate operation (`progress_percentage` is a
derived view of the state, so this holds of every reachable state),
`progressPercentage` equals `100·|COMPLETED stage results|/|stages|`,
and is 0 for an empty stage list. -/
theorem C7_progress_invariant (p : Pipeline) :
    p.progress_percentage = progressSpec p := by
  unfold Pipeline.progress_percentage progressSpec
  split
  · rfl
  · ring

/-! ## C1: terminal states and mutation -/

/-- C1 counterexample: the claim says every mutating operation on a
terminal pipeline raises `InvalidStateError` and leaves the state
unchanged, and in particular that `fail_stage` on a FAILED pipeline and
`cancel_pipeline` on a CANCELLED pipeline are rejected. On the code,
`fail_stage` on a FAILED pipeline raises nothing and mutates the
aggregate, and `cancel_pipeline` on a CANCELLED pipeline raises
nothing. -/
theorem C1_counterexample :
    pFailedFixture.status = .FAILED ∧
    (Pipeline.fail_stage 2 "A" "again" pFailedFixture).1 = none ∧
    dictGetD "A" 0 (Pipeline.fail_stage 2 "A" "again" pFailedFixture).2.retry_counts = 2 ∧
    dictGetD "A" 0 pFailedFixture.retry_counts = 1 ∧
    pCancelledFixture.status = .CANCELLED ∧
    (Pipeline.cancel_pipeline 2 "again" pCancelledFixture).1 = none := by
  decide

/-- C1 amended: terminal states reject `start_processing`,
`complete_stage` (on a declared stage) and `complete_pipeline` with an
invalid-state error and unchanged state; `cancel_pipeline` is rejected
with unchanged state exactly when the status is COMPLETED or FAILED (a
CANCELLED pipeline may be cancelled again); `fail_stage` has no
terminal-state guard: it raises nothing and increments the stage's retry
count in any status. -/
theorem C1_amended (p : Pipeline) (now : Nat) (n msg reason : String)
    (r : StageResult)
    (hterm : p.status = .COMPLETED ∨ p.status = .FAILED ∨ p.status = .CANCELLED)
    (hn : p.hasStage n = true) :
    Pipeline.start_processing now p = (some (.cannotStart p.status), p) ∧
    Pipeline.complete_stage now n r p = (some (.cannotCompleteStage p.status), p) ∧
    Pipeline.complete_pipeline now p = (some (.cannotCompletePipeline p.status), p) ∧
    (p.status = .COMPLETED ∨ p.status = .FAILED →
      Pipeline.cancel_pipeline now reason p = (some (.cannotCancel p.status), p)) ∧
    (p.status = .CANCELLED → (Pipeline.cancel_pipeline now reason p).1 = none) ∧
    (Pipeline.fail_stage now n msg p).1 = none ∧
    dictGetD n 0 (Pipeline.fail_stage now n msg p).2.retry_counts =
      dictGetD n 0 p.retry_counts + 1 := by
  have hne : p.status ≠ .PENDING ∧ p.status ≠ .RUNNING := by
    rcases hterm with h | h | h <;> rw [h] <;> exact ⟨by simp, by simp⟩
  refine ⟨?_, ?_, ?_, ?_, ?_, ?_, ?_⟩
  · simp [Pipeline.start_processing, hne.1]
  · simp [Pipeline.complete_stage, hn, hne.2]
  · simp [Pipeline.complete_pipeline, hne.2]
  · intro h
    rcases h with h | h <;> simp [Pipeline.cancel_pipeline, h]
  · intro h
    simp [Pipeline.cancel_pipeline, h]
  · unfold Pipeline.fail_stage
    rw [if_neg (by simp [hn])]
  · unfold Pipeline.fail_stage
    rw [if_neg (by simp [hn])]
    dsimp only
    split <;> simp [Pipeline.add_domain_event, dictGetD_dictSet_self]

/-- C1 amended, witness: the amended statement applied to the concrete
FAILED pipeline `pFailedFixture`. -/
theorem C1_amended_witness :
    Pipeline.start_processing 2 pFailedFixture =
      (some (.cannotStart pFailedFixture.status), pFailedFixture) ∧
    (Pipeline.fail_stage 2 "A" "m" pFailedFixture).1 = none := by
  have h := C1_amended pFailedFixture 2 "A" "m" "r" resultA
    (by decide) (by decide)
  exact ⟨h.1, h.2.2.2.2.2.1⟩

/-! ## C2: stage completion and index advancement -/

theorem complete_pipeline_index (now : Nat) (p : Pipeline) :
    (Pipeline.complete_pipeline now p).2.current_stage_index = p.current_stage_index := by
  unfold Pipeline.complete_pipeline
  split
  · rfl
  · split
    · rfl
    · simp [Pipeline.add_domain_event]

theorem advance_index (now : Nat) (p : Pipeline) :
    (Pipeline.advance_to_next_stage now p).2.current_stage_index =
      p.current_stage_index + 1 := by
  unfold Pipeline.advance_to_next_stage
  dsimp only
  split
  · rw [complete_pipeline_index]
  · rfl

theorem applyCheckpoint_index (n : String) (r : StageResult) (p : Pipeline) :
    (Pipeline.applyCheckpoint n r p).current_stage_index = p.current_stage_index := by
  unfold Pipeline.applyCheckpoint
  split <;> rfl

theorem finishCompleteStage_index (n : String) (r : StageResult)
    (st : Option PipelineError × Pipeline) :
    (Pipeline.finishCompleteStage n r st).2.current_stage_index =
      st.2.current_stage_index := by
  obtain ⟨oe, p'⟩ := st
  cases oe <;> simp [Pipeline.finishCompleteStage, Pipeline.add_domain_event]

/-- C2 counterexample: the claim says a COMPLETED result for a stage
other than the one at `currentStageIndex` leaves the index unchanged.
On the code, completing stage `"B"` of a RUNNING `[A, B]` pipeline whose
current index is 0 (current stage `"A"`) advances the index to 1. -/
theorem C2_counterexample :
    startedAB.status = .RUNNING ∧
    startedAB.current_stage_index = 0 ∧
    Pipeline.stage_order startedAB = ["A", "B"] ∧
    resultB.status = .COMPLETED ∧
    (Pipeline.complete_stage 1 "B" resultB startedAB).1 = none ∧
    (Pipeline.complete_stage 1 "B" resultB startedAB).2.current_stage_index = 1 := by
  decide

/-- C2 amended: for every RUNNING pipeline and known stage name,
`complete_stage` advances `currentStageIndex` by one for every result
with status COMPLETED — regardless of whether the name is the stage at
the current index — and leaves the index unchanged for any other result
status. -/
theorem C2_amended (p : Pipeline) (now : Nat) (n : String) (r : StageResult)
    (hrun : p.status = .RUNNING) (hn : p.hasStage n = true) :
    (Pipeline.complete_stage now n r p).2.current_stage_index =
      if r.status = StageStatus.COMPLETED then p.current_stage_index + 1
      else p.current_stage_index := by
  unfold Pipeline.complete_stage
  rw [if_neg (by simp [hn]), if_neg (by simp [hrun])]
  dsimp only
  rw [finishCompleteStage_index]
  by_cases hc : r.status = StageStatus.COMPLETED
  · rw [if_pos hc, if_pos hc, advance_index]
    simp [applyCheckpoint_index]
  · rw [if_neg hc, if_neg hc]
    simp [applyCheckpoint_index]

/-- C2 amended, witness: the amended statement at the concrete `[A, B]`
pipeline, completing the out-of-order stage `"B"`. -/
theorem C2_amended_witness :
    (Pipeline.complete_stage 1 "B" resultB startedAB).2.current_stage_index =
      if resultB.status = StageStatus.COMPLETED then
        startedAB.current_stage_index + 1
      else startedAB.current_stage_index :=
  C2_amended startedAB 1 "B" resultB (by decide) (by decide)

/-! ## C3 / C10: retry bookkeeping of `fail_stage` -/

/-- Evaluation of `fail_stage` when the pre-call retry count is still
below `max_retries`: the pipeline does not fail; only the retry count,
`updated_at` and the event log change. -/
theorem fail_stage_nonexhaust (now : Nat) (n msg : String) (p : Pipeline)
    (hn : p.hasStage n = true)
    (hlt : dictGetD n 0 p.retry_counts < p.configuration.max_retries) :
    Pipeline.fail_stage now n msg p =
      (none, { p with
        retry_counts := dictSet n (dictGetD n 0 p.retry_counts + 1) p.retry_counts,
        updated_at := now,
        domain_events := p.domain_events ++
          [.stageFailed p.id p.video_id n msg (dictGetD n 0 p.retry_counts + 1)
            p.configuration.max_retries] }) := by
  unfold Pipeline.fail_stage
  rw [if_neg (by simp [hn])]
  dsimp only
  rw [if_neg (Nat.not_le.mpr hlt)]
  simp [Pipeline.add_domain_event]

/-- Evaluation of `fail_stage` when the pre-call retry count has reached
`max_retries`: the pipeline transitions to FAILED and records a FAILED
`StageResult` with the call's error message. -/
theorem fail_stage_exhaust (now : Nat) (n msg : String) (p : Pipeline)
    (hn : p.hasStage n = true)
    (hge : p.configuration.max_retries ≤ dictGetD n 0 p.retry_counts) :
    Pipeline.fail_stage now n msg p =
      (none, { p with
        status := .FAILED,
        retry_counts := dictSet n (dictGetD n 0 p.retry_counts + 1) p.retry_counts,
        stage_results := dictSet n
          { stage_name := n, status := .FAILED, output_data := [],
            error_message := some msg } p.stage_results,
        updated_at := now,
        domain_events := p.domain_events ++
          [.stageFailed p.id p.video_id n msg (dictGetD n 0 p.retry_counts + 1)
            p.configuration.max_retries] }) := by
  unfold Pipeline.fail_stage
  rw [if_neg (by simp [hn])]
  dsimp only
  rw [if_pos hge]
  simp [Pipeline.add_domain_event]

/-- `k` successive `fail_stage(n, msgs·)` calls (the `j`-th call uses
message `msgs j`). -/
def failSeq (now : Nat) (n : String) (msgs : Nat → String) :
    Nat → Pipeline → Pipeline
  | 0, p => p
  | k + 1, p => (Pipeline.fail_stage now n (msgs k) (failSeq now n msgs k p)).2

theorem failSeq_invariant (now : Nat) (n : String) (msgs : Nat → String) (p : Pipeline)
    (hn : p.hasStage n = true) (h0 : dictGetD n 0 p.retry_counts = 0) :
    ∀ k, k ≤ p.configuration.max_retries →
      (failSeq now n msgs k p).status = p.status ∧
      dictGetD n 0 (failSeq now n msgs k p).retry_counts = k ∧
      (failSeq now n msgs k p).stage_results = p.stage_results ∧
      (failSeq now n msgs k p).stages = p.stages ∧
      (failSeq now n msgs k p).configuration = p.configuration := by
  intro k
  induction k with
  | zero => intro _; exact ⟨rfl, h0, rfl, rfl, rfl⟩
  | succ k ih =>
    intro hk
    obtain ⟨hs, hr, hres, hst, hcfg⟩ := ih (Nat.le_of_succ_le hk)
    have hn' : (failSeq now n msgs k p).hasStage n = true := by
      have := hn
      simp only [Pipeline.hasStage, Pipeline.stage_order] at this ⊢
      rw [hst]
      exact this
    have hlt : dictGetD n 0 (failSeq now n msgs k p).retry_counts <
        (failSeq now n msgs k p).configuration.max_retries := by
      rw [hr, hcfg]
      exact Nat.lt_of_lt_of_le (Nat.lt_succ_self k) hk
    rw [failSeq, fail_stage_nonexhaust now n (msgs k) _ hn' hlt]
    refine ⟨hs, ?_, hres, hst, hcfg⟩
    rw [dictGetD_dictSet_self, hr]

/-- C3: with `max_retries = N`, `N` successive `fail_stage` calls on a
fresh RUNNING pipeline leave it RUNNING, and the `(N+1)`-th call raises
nothing, sets the status to FAILED, and writes a FAILED `StageResult`
for the stage whose `errorMessage` is the last call's message. -/
theorem C3_retry_boundary (p : Pipeline) (now N : Nat) (n : String)
    (msgs : Nat → String)
    (hn : p.hasStage n = true) (hrun : p.status = .RUNNING)
    (h0 : dictGetD n 0 p.retry_counts = 0)
    (hN : p.configuration.max_retries = N) :
    (failSeq now n msgs N p).status = .RUNNING ∧
    (Pipeline.fail_stage now n (msgs N) (failSeq now n msgs N p)).1 = none ∧
    (Pipeline.fail_stage now n (msgs N) (failSeq now n msgs N p)).2.status = .FAILED ∧
    dictGet n (Pipeline.fail_stage now n (msgs N) (failSeq now n msgs N p)).2.stage_results =
      some { stage_name := n, status := .FAILED, output_data := [],
             error_message := some (msgs N) } := by
  obtain ⟨hs, hr, hres, hst, hcfg⟩ :=
    failSeq_invariant now n msgs p hn h0 N hN.ge
  have hn' : (failSeq now n msgs N p).hasStage n = true := by
    have := hn
    simp only [Pipeline.hasStage, Pipeline.stage_order] at this ⊢
    rw [hst]
    exact this
  have hge : (failSeq now n msgs N p).configuration.max_retries ≤
      dictGetD n 0 (failSeq now n msgs N p).retry_counts := by
    rw [hr, hcfg, hN]
  rw [fail_stage_exhaust now n (msgs N) _ hn' hge]
  exact ⟨hs.trans hrun, rfl, rfl, by rw [dictGet_dictSet_self]⟩

/-- Message sequence used by the C3 witness. -/
def wMsgs : Nat → String := fun k => "err" ++ toString k

/-- C3 witness: the boundary theorem applied to a concrete single-stage
pipeline with `max_retries = 2`. -/
theorem C3_witness :
    (failSeq 1 "A" wMsgs 2 (startedA 2)).status = .RUNNING ∧
    (Pipeline.fail_stage 1 "A" (wMsgs 2) (failSeq 1 "A" wMsgs 2 (startedA 2))).1 = none ∧
    (Pipeline.fail_stage 1 "A" (wMsgs 2) (failSeq 1 "A" wMsgs 2 (startedA 2))).2.status = .FAILED ∧
    dictGet "A" (Pipeline.fail_stage 1 "A" (wMsgs 2)
        (failSeq 1 "A" wMsgs 2 (startedA 2))).2.stage_results =
      some { stage_name := "A", status := .FAILED, output_data := [],
             error_message := some (wMsgs 2) } :=
  C3_retry_boundary (startedA 2) 1 2 "A" wMsgs (by decide) (by decide)
    (by decide) (by decide)

/-- C10: a non-exhausting `fail_stage` call on a RUNNING pipeline (its
pre-call retry count strictly below `max_retries`) raises nothing,
increments only that stage's retry count, appends exactly one
`StageFailed` event, and leaves the status, `currentStageIndex`,
`stageResults` and `checkpointData` unchanged. -/
theorem C10_nonexhausting_frame (p : Pipeline) (now : Nat) (n msg : String)
    (hrun : p.status = .RUNNING) (hn : p.hasStage n = true)
    (hlt : dictGetD n 0 p.retry_counts < p.configuration.max_retries) :
    (Pipeline.fail_stage now n msg p).1 = none ∧
    (Pipeline.fail_stage now n msg p).2.status = .RUNNING ∧
    dictGetD n 0 (Pipeline.fail_stage now n msg p).2.retry_counts =
      dictGetD n 0 p.retry_counts + 1 ∧
    (∀ m, m ≠ n → dictGet m (Pipeline.fail_stage now n msg p).2.retry_counts =
      dictGet m p.retry_counts) ∧
    (Pipeline.fail_stage now n msg p).2.domain_events =
      p.domain_events ++ [.stageFailed p.id p.video_id n msg
        (dictGetD n 0 p.retry_counts + 1) p.configuration.max_retries] ∧
    (Pipeline.fail_stage now n msg p).2.current_stage_index = p.current_stage_index ∧
    (Pipeline.fail_stage now n msg p).2.stage_results = p.stage_results ∧
    (Pipeline.fail_stage now n msg p).2.checkpoint_data = p.checkpoint_data := by
  rw [fail_stage_nonexhaust now n msg p hn hlt]
  refine ⟨rfl, hrun, dictGetD_dictSet_self _ _ _ _, ?_, rfl, rfl, rfl, rfl⟩
  intro m hm
  exact dictGet_dictSet_ne m n _ _ hm

/-- C10 witness: the frame property at a concrete RUNNING pipeline with
retry count 0 and `max_retries = 3`. -/
theorem C10_witness :
    (Pipeline.fail_stage 1 "A" "oops" (startedA 3)).1 = none ∧
    (Pipeline.fail_stage 1 "A" "oops" (startedA 3)).2.status = .RUNNING ∧
    dictGetD "A" 0 (Pipeline.fail_stage 1 "A" "oops" (startedA 3)).2.retry_counts =
      dictGetD "A" 0 (startedA 3).retry_counts + 1 ∧
    (∀ m, m ≠ "A" → dictGet m (Pipeline.fail_stage 1 "A" "oops" (startedA 3)).2.retry_counts =
      dictGet m (startedA 3).retry_counts) ∧
    (Pipeline.fail_stage 1 "A" "oops" (startedA 3)).2.domain_events =
      (startedA 3).domain_events ++ [.stageFailed (startedA 3).id (startedA 3).video_id
        "A" "oops" (dictGetD "A" 0 (startedA 3).retry_counts + 1)
        (startedA 3).configuration.max_retries] ∧
    (Pipeline.fail_stage 1 "A" "oops" (startedA 3)).2.current_stage_index =
      (startedA 3).current_stage_index ∧
    (Pipeline.fail_stage 1 "A" "oops" (startedA 3)).2.stage_results =
      (startedA 3).stage_results ∧
    (Pipeline.fail_stage 1 "A" "oops" (startedA 3)).2.checkpoint_data =
      (startedA 3).checkpoint_data :=
  C10_nonexhausting_frame (startedA 3) 1 "A" "oops" (by decide) (by decide) (by decide)

/-! ## C6: checkpoint round-trip -/

/-- C6: restoring from a pipeline's checkpoint snapshot with a matching
stage-handle list yields a pipeline equal to the original in all
persistent fields (id, videoId, status, currentStageIndex, stageResults,
retryCounts, checkpointData, createdAt, updatedAt) and with an empty
event list (restoration emits no domain events). Both checkpoint
operations are modelled from the spec (§4.2), the source snapshot not
defining them. -/
theorem C6_checkpoint_roundtrip (p : Pipeline) (stages : List StageSpec)
    (h : stages.map StageSpec.name = p.stage_order) :
    Pipeline.restore_from_checkpoint p.get_checkpoint_data stages =
      .ok { id := p.id, video_id := p.video_id, configuration := p.configuration,
            stages := stages, status := p.status,
            stage_results := p.stage_results,
            current_stage_index := p.current_stage_index,
            created_at := p.created_at, updated_at := p.updated_at,
            domain_events := [], retry_counts := p.retry_counts,
            checkpoint_data := p.checkpoint_data } := by
  unfold Pipeline.restore_from_checkpoint Pipeline.get_checkpoint_data
  rw [if_neg (by simp [h])]

/-- C6 witness: the round trip at the concrete `[A, B]` pipeline. -/
theorem C6_witness :
    Pipeline.restore_from_checkpoint startedAB.get_checkpoint_data [stageA, stageB] =
      .ok { id := startedAB.id, video_id := startedAB.video_id,
            configuration := startedAB.configuration,
            stages := [stageA, stageB], status := startedAB.status,
            stage_results := startedAB.stage_results,
            current_stage_index := startedAB.current_stage_index,
            created_at := startedAB.created_at, updated_at := startedAB.updated_at,
            domain_events := [], retry_counts := startedAB.retry_counts,
            checkpoint_data := startedAB.checkpoint_data } :=
  C6_checkpoint_roundtrip startedAB [stageA, stageB] (by decide)

/-! ## C8: empty stage list -/

/-- C8 counterexample: the claim says `start()` on an empty-stage
pipeline transitions it immediately to COMPLETED. On the code,
`start_processing` only sets RUNNING (it performs no auto-advance). -/
theorem C8_counterexample :
    (Pipeline.start_processing 1
      (Pipeline.mk_pipeline "P" "V" (testConfig 3 true) [] 0)).1 = none ∧
    (Pipeline.start_processing 1
      (Pipeline.mk_pipeline "P" "V" (testConfig 3 true) [] 0)).2.status = .RUNNING ∧
    (Pipeline.start_processing 1
      (Pipeline.mk_pipeline "P" "V" (testConfig 3 true) [] 0)).2.status ≠ .COMPLETED := by
  decide

/-- C8 amended: `start()` on an empty-stage pipeline leaves it RUNNING;
the pipeline reaches COMPLETED through the orchestrator, whose
`execute_pipeline`, finding the status still RUNNING after the (empty)
stage loop, calls `complete_pipeline` — so a driven empty pipeline does
end COMPLETED, with no `complete_stage` call, but not inside
`start()`. -/
theorem C8_amended (now : Nat) (pid vid path : String)
    (cfg : PipelineConfiguration) (sf : Nat → Bool) :
    (Pipeline.start_processing now
      (Pipeline.mk_pipeline pid vid cfg [] now)).2.status = .RUNNING ∧
    (execute_pipeline now pid vid path cfg [] sf).2.1.status = .COMPLETED ∧
    (execute_pipeline now pid vid path cfg [] sf).2.2 = none := by
  refine ⟨?_, ?_, ?_⟩ <;>
    simp [execute_pipeline, Pipeline.mk_pipeline, Pipeline.start_processing,
      publish_domain_events, run_stages, Pipeline.complete_pipeline,
      Pipeline.findIncomplete, Pipeline.stage_order, Pipeline.clear_domain_events,
      Pipeline.add_domain_event]

/-! ## C4: flush ordering -/

def Action.isNotifyCompleted : Action → Bool
  | .notifyStageCompleted _ _ _ _ => true
  | _ => false

def Action.isCheckpointSave : Action → Bool
  | .checkpointSave _ _ _ => true
  | _ => false

/-- The full effect trace of a one-stage happy-path run with
checkpointing enabled. -/
def happyTraceC4 : List Action :=
  (execute_pipeline 0 "P" "V" "path" (testConfig 0 true) [behA] (fun _ => false)).1

/-- C4 counterexample: the claim says the orchestrator performs the
stage's progress notification only after the checkpoint save. On the
code the order is reversed: in the concrete one-stage happy run, the
`notifyStageCompleted` call strictly precedes the checkpoint save. -/
theorem C4_counterexample :
    happyTraceC4.any Action.isNotifyCompleted = true ∧
    happyTraceC4.any Action.isCheckpointSave = true ∧
    happyTraceC4.findIdx Action.isNotifyCompleted <
      happyTraceC4.findIdx Action.isCheckpointSave := by
  decide

theorem progress_percentage_clear (p : Pipeline) :
    p.clear_domain_events.progress_percentage = p.progress_percentage := rfl

/-- C4 amended: for every stage the orchestrator drives successfully,
after the aggregate mutation it first publishes all pending events in
their emission order, then clears the aggregate's pending events, then
performs the progress notification for that stage, and only after the
notification (back in the loop) performs the checkpoint save when
checkpointing is enabled. -/
theorem C4_amended (now i : Nat) (cfg : PipelineConfiguration) (sf : Nat → Bool)
    (b : StageBeh) (rest : List StageBeh) (input : Data) (p p₁ : Pipeline)
    (result : StageResult)
    (hdeps : p.get_stage_dependencies_met b.spec.name = true)
    (hrun : p.status = .RUNNING)
    (hproc : b.process input (dictGetD b.spec.name [] cfg.stage_configs) = .ok result)
    (hcs : Pipeline.complete_stage now b.spec.name result p = (none, p₁))
    (hck : cfg.checkpoint_enabled = true) :
    execute_stage now b input cfg p =
      ([Action.notifyStageStarted p.id p.video_id b.spec.name] ++
       p₁.domain_events.map Action.publish ++
       [Action.notifyStageCompleted p₁.id p₁.video_id b.spec.name
         p₁.progress_percentage],
       p₁.clear_domain_events, none) ∧
    run_stages now cfg sf (b :: rest) i input p =
      ((execute_stage now b input cfg p).1 ++
        save_checkpoint_actions (sf i) p₁.clear_domain_events ++
        (run_stages now cfg sf rest (i + 1)
          (loopNextInput b.spec.name input p₁.clear_domain_events)
          p₁.clear_domain_events).1,
       (run_stages now cfg sf rest (i + 1)
          (loopNextInput b.spec.name input p₁.clear_domain_events)
          p₁.clear_domain_events).2) := by
  have h1 : execute_stage now b input cfg p =
      ([Action.notifyStageStarted p.id p.video_id b.spec.name] ++
       p₁.domain_events.map Action.publish ++
       [Action.notifyStageCompleted p₁.id p₁.video_id b.spec.name
         p₁.progress_percentage],
       p₁.clear_domain_events, none) := by
    unfold execute_stage
    rw [if_neg (by simp [hdeps])]
    dsimp only
    rw [hproc]
    dsimp only
    rw [hcs]
    dsimp only
    rw [publish_domain_events_eq]
    rfl
  refine ⟨h1, ?_⟩
  rw [run_stages]
  rw [if_neg (by simp [hrun])]
  dsimp only
  rw [h1]
  dsimp only
  rw [if_pos hck]

/-- Result of completing stage `A` on the started one-stage pipeline
(the `p₁` of the C4 witness). -/
def wP1C4 : Pipeline := (Pipeline.complete_stage 0 "A" resultA (startedA 0)).2

/-- C4 amended, witness: the amended ordering at the concrete one-stage
pipeline. -/
theorem C4_amended_witness :
    execute_stage 0 behA [("video_path", "path")] (testConfig 0 true) (startedA 0) =
      ([Action.notifyStageStarted (startedA 0).id (startedA 0).video_id behA.spec.name] ++
       wP1C4.domain_events.map Action.publish ++
       [Action.notifyStageCompleted wP1C4.id wP1C4.video_id behA.spec.name
         wP1C4.progress_percentage],
       wP1C4.clear_domain_events, none) ∧
    run_stages 0 (testConfig 0 true) (fun _ => false) [behA] 0
        [("video_path", "path")] (startedA 0) =
      ((execute_stage 0 behA [("video_path", "path")] (testConfig 0 true) (startedA 0)).1 ++
        save_checkpoint_actions false wP1C4.clear_domain_events ++
        (run_stages 0 (testConfig 0 true) (fun _ => false) [] 1
          (loopNextInput behA.spec.name [("video_path", "path")] wP1C4.clear_domain_events)
          wP1C4.clear_domain_events).1,
       (run_stages 0 (testConfig 0 true) (fun _ => false) [] 1
          (loopNextInput behA.spec.name [("video_path", "path")] wP1C4.clear_domain_events)
          wP1C4.clear_domain_events).2) :=
  C4_amended 0 0 (testConfig 0 true) (fun _ => false) behA [] [("video_path", "path")]
    (startedA 0) wP1C4 resultA (by decide) (by decide) rfl rfl rfl

/-! ## C5: failure surfacing from `execute_pipeline` -/

/-- The concrete run for C5: one stage `A` whose body raises `"boom"`,
`max_retries = 3`, checkpointing disabled, no stage named
`"orchestrator"`. -/
def runC5 : List Action × Pipeline × Option Exn :=
  execute_pipeline 0 "P" "V" "path" (testConfig 3 false) [behBoom] (fun _ => false)

/-- C5: the stage failure is recorded under the stage's own name (the
`StageFailed("A", "boom")` event is published and the failure
notification for `"A"` is sent), but `execute_pipeline` does not
re-raise the stage's error: its `except` block calls
`fail_stage("orchestrator", str(e))`, which itself raises
`Unknown stage: orchestrator`, and that error is what reaches the
caller. This contradicts the code's own unreachable bare `raise`
(and the spec's propagation rule), so it is a code bug, not intended
behaviour. -/
theorem C5_error_replaced :
    runC5.2.2 = some (.pipelineErr (.unknownStage "orchestrator")) ∧
    runC5.2.2 ≠ some (.stageErr "boom") ∧
    publishedEvents runC5.1 =
      [.pipelineStarted "P" "V" 1 (testConfig 3 false),
       .stageFailed "P" "V" "A" "boom" 1 3] ∧
    runC5.1.contains (.notifyStageFailed "P" "V" "A" "boom") = true := by
  decide

/-! ## C9: checkpoint-save failure is non-fatal -/

theorem publishedEvents_append (a b : List Action) :
    publishedEvents (a ++ b) = publishedEvents a ++ publishedEvents b := by
  simp [publishedEvents]

theorem publishedEvents_save (b : Bool) (p : Pipeline) :
    publishedEvents (save_checkpoint_actions b p) = [] := by
  cases b <;> simp [save_checkpoint_actions, publishedEvents]

/-- The stage loop's published events, final pipeline and raised error
are independent of whether (and where) the checkpoint store raises: a
raising save only changes the checkpoint/warning entries of the trace. -/
theorem run_stages_save_invariance (now : Nat) (cfg : PipelineConfiguration)
    (sf sf' : Nat → Bool) (behs : List StageBeh) :
    ∀ i input p,
      publishedEvents (run_stages now cfg sf behs i input p).1 =
        publishedEvents (run_stages now cfg sf' behs i input p).1 ∧
      (run_stages now cfg sf behs i input p).2 =
        (run_stages now cfg sf' behs i input p).2 := by
  induction behs with
  | nil => intro i input p; exact ⟨rfl, rfl⟩
  | cons b rest ih =>
    intro i input p
    rw [run_stages, run_stages]
    by_cases hs : p.status = .RUNNING
    · rw [if_neg (by simp [hs]), if_neg (by simp [hs])]
      dsimp only
      rcases hE : execute_stage now b input cfg p with ⟨tr, p2, err⟩
      cases err with
      | some e => exact ⟨rfl, rfl⟩
      | none =>
        dsimp only
        obtain ⟨ihTr, ihSt⟩ := ih (i + 1) (loopNextInput b.spec.name input p2) p2
        constructor
        · by_cases hck : cfg.checkpoint_enabled = true
          · rw [if_pos hck, if_pos hck]
            simp [publishedEvents_append, publishedEvents_save, ihTr]
          · rw [if_neg hck, if_neg hck]
            simp [publishedEvents_append, ihTr]
        · dsimp only
          rw [ihSt]
    · rw [if_pos (by simp [hs]), if_pos (by simp [hs])]
      exact ⟨rfl, rfl⟩

/-- Whole-run version of the invariance: `execute_pipeline`'s published
events, final pipeline and raised error do not depend on the checkpoint
store's raising behaviour. -/
theorem execute_pipeline_save_invariance (now : Nat) (pid vid path : String)
    (cfg : PipelineConfiguration) (behs : List StageBeh) (sf sf' : Nat → Bool) :
    publishedEvents (execute_pipeline now pid vid path cfg behs sf).1 =
      publishedEvents (execute_pipeline now pid vid path cfg behs sf').1 ∧
    (execute_pipeline now pid vid path cfg behs sf).2 =
      (execute_pipeline now pid vid path cfg behs sf').2 := by
  unfold execute_pipeline
  dsimp only
  rcases hS : Pipeline.start_processing now
      (Pipeline.mk_pipeline pid vid cfg (behs.map StageBeh.spec) now) with ⟨oe, p1⟩
  cases oe with
  | some e => exact ⟨rfl, rfl⟩
  | none =>
    dsimp only
    obtain ⟨hTr, hSt⟩ := run_stages_save_invariance now cfg sf sf' behs 0
      [("video_path", path)] (publish_domain_events p1).2
    rcases hR : run_stages now cfg sf behs 0 [("video_path", path)]
        (publish_domain_events p1).2 with ⟨tr, p3, err⟩
    rcases hR' : run_stages now cfg sf' behs 0 [("video_path", path)]
        (publish_domain_events p1).2 with ⟨tr', p3', err'⟩
    rw [hR, hR'] at hTr hSt
    dsimp only at hTr hSt
    injection hSt with hp3 herr
    subst hp3
    subst herr
    cases err with
    | some e =>
      dsimp only
      exact ⟨by simp [publishedEvents_append, hTr], rfl⟩
    | none =>
      dsimp only
      by_cases h3 : p3.status = .RUNNING
      · rw [if_pos h3, if_pos h3]
        rcases hC : Pipeline.complete_pipeline now p3 with ⟨oe2, p4⟩
        cases oe2 with
        | some e =>
          dsimp only
          exact ⟨by simp [publishedEvents_append, hTr], rfl⟩
        | none =>
          dsimp only
          exact ⟨by simp [publishedEvents_append, hTr], rfl⟩
      · rw [if_neg h3, if_neg h3]
        exact ⟨by simp [publishedEvents_append, hTr], rfl⟩

/-- C9: if the run with an always-succeeding checkpoint store completes
the pipeline (final status COMPLETED, no error), then a run with any
raising pattern of the store still completes: the save step never
propagates an error, the final pipeline is the same (hence COMPLETED),
and the sequence of published events is unchanged. -/
theorem C9_checkpoint_failure_nonfatal (now : Nat) (pid vid path : String)
    (cfg : PipelineConfiguration) (behs : List StageBeh) (sf : Nat → Bool)
    (tr₀ : List Action) (p₀ : Pipeline)
    (h : execute_pipeline now pid vid path cfg behs (fun _ => false) = (tr₀, p₀, none))
    (hc : p₀.status = .COMPLETED) :
    (execute_pipeline now pid vid path cfg behs sf).2.1 = p₀ ∧
    (execute_pipeline now pid vid path cfg behs sf).2.1.status = .COMPLETED ∧
    (execute_pipeline now pid vid path cfg behs sf).2.2 = none ∧
    publishedEvents (execute_pipeline now pid vid path cfg behs sf).1 =
      publishedEvents tr₀ := by
  obtain ⟨hTr, hSt⟩ := execute_pipeline_save_invariance now pid vid path cfg behs
    sf (fun _ => false)
  rw [h] at hTr hSt
  refine ⟨congrArg Prod.fst hSt, ?_, congrArg Prod.snd hSt, hTr⟩
  rw [congrArg Prod.fst hSt]
  exact hc

/-- The two-stage happy run with all checkpoint saves succeeding (spec
scenario 6's baseline). -/
def wRunC9 : List Action × Pipeline × Option Exn :=
  execute_pipeline 0 "P" "V" "path" (testConfig 0 true) [behA, behB] (fun _ => false)

/-- C9 witness: spec scenario 6 — stages `[A, B]` both succeed,
checkpointing enabled, the store raises on stage `A` (`sf 0 = true`);
the pipeline still completes with the same published events. -/
theorem C9_witness :
    (execute_pipeline 0 "P" "V" "path" (testConfig 0 true) [behA, behB]
      (fun i => i == 0)).2.1 = wRunC9.2.1 ∧
    (execute_pipeline 0 "P" "V" "path" (testConfig 0 true) [behA, behB]
      (fun i => i == 0)).2.1.status = .COMPLETED ∧
    (execute_pipeline 0 "P" "V" "path" (testConfig 0 true) [behA, behB]
      (fun i => i == 0)).2.2 = none ∧
    publishedEvents (execute_pipeline 0 "P" "V" "path" (testConfig 0 true) [behA, behB]
      (fun i => i == 0)).1 = publishedEvents wRunC9.1 :=
  C9_checkpoint_failure_nonfatal 0 "P" "V" "path" (testConfig 0 true) [behA, behB]
    (fun i => i == 0) wRunC9.1 wRunC9.2.1 rfl (by decide)

end MLPipeline
